import Mathlib

/-
Shallow embedding of the content-cache / daily-lock / orchestrator core of
src/backend/routers/insights.py and the Tavily key rotator of
src/backend/services/ai_processor.py.

Conventions of the embedding:
- Content items are opaque values (a type parameter); the code never inspects
  them beyond list slicing.
- time.time() and datetime.now() are modelled by an explicit integer argument
  (now); the calendar day string is an explicit argument (today).
- Python dicts keyed by strings are modelled as total functions into Option.
- The filesystem-backed daily-lock store (user_daily/tools, user_daily/cases)
  is modelled as a map (user_id, date) to the stored item list; file reads and
  writes are assumed to succeed (the code swallows I/O errors around them).
- The premium oracle (get_premium_status plus the expires_at parse) is
  modelled by a value of type Except String (Option PremiumRecord): a raised
  exception anywhere in the try block is the error case; expires_at is already
  parsed to an integer timestamp (an unparsable string raises, which is again
  the error case).
- The batch producer (ai_processor.search_and_recommend_tools / _cases) is
  modelled by a value of type Except String (List items): its single
  invocation either returns a batch or raises.
-/

/- CacheEntry models one value of ContentCache.tools_cache / cases_cache:
   {"items": [...], "timestamp": ..., "seed": ...} (insights.py lines 69-73). -/
structure CacheEntry (α : Type) where
  items : List α
  timestamp : Int
  seed : Int
deriving DecidableEq

/- ContentCache models the two per-profession dicts of the ContentCache class
   (insights.py lines 32-35). -/
structure ContentCache (α : Type) where
  tools_cache : String → Option (CacheEntry α)
  cases_cache : String → Option (CacheEntry α)

/- insights.py line 28. -/
def ContentCache.DISPLAY_COUNT : Nat := 6

/- insights.py line 29. -/
def ContentCache.FETCH_COUNT : Nat := 18

/- insights.py line 30. -/
def ContentCache.CACHE_TTL : Int := 1800

/- ContentCache.__init__ (insights.py lines 32-35): both caches start empty. -/
def ContentCache.empty {α : Type} : ContentCache α := ⟨fun _ => none, fun _ => none⟩

/- ContentCache._is_expired (insights.py lines 37-41): a missing entry counts
   as expired; otherwise expired iff now - timestamp > CACHE_TTL (strict). -/
def ContentCache.is_expired {α : Type} (cache_entry : Option (CacheEntry α)) (now : Int) : Bool :=
  match cache_entry with
  | none => true
  | some e => now - e.timestamp > ContentCache.CACHE_TTL

/- ContentCache.get_tools (insights.py lines 43-65).  Returns the pair
   (items, need_fetch) together with the cache after the (possibly
   destructive) read.  The inner none arm is unreachable because is_expired
   already returned true for a missing entry, mirroring the Python control
   flow where cache is known to be a dict after the expiry check. -/
def ContentCache.get_tools {α : Type} (c : ContentCache α) (profession : String) (now : Int) :
    (List α × Bool) × ContentCache α :=
  if ContentCache.is_expired (c.tools_cache profession) now then (([], true), c)
  else
    match c.tools_cache profession with
    | none => (([], true), c)
    | some e =>
      if e.items.length < ContentCache.DISPLAY_COUNT then (([], true), c)
      else
        ((e.items.take ContentCache.DISPLAY_COUNT, false),
         ⟨fun p => if p = profession then
             some ⟨e.items.drop ContentCache.DISPLAY_COUNT, e.timestamp, e.seed⟩
           else c.tools_cache p,
          c.cases_cache⟩)

/- ContentCache.set_tools (insights.py lines 67-74): unconditionally replaces
   the entry with the given items, timestamp = now, and seed. -/
def ContentCache.set_tools {α : Type} (c : ContentCache α) (profession : String)
    (items : List α) (seed : Int) (now : Int) : ContentCache α :=
  ⟨fun p => if p = profession then some ⟨items, now, seed⟩ else c.tools_cache p,
   c.cases_cache⟩

/- ContentCache.get_cases (insights.py lines 76-92): identical to get_tools
   but on cases_cache. -/
def ContentCache.get_cases {α : Type} (c : ContentCache α) (profession : String) (now : Int) :
    (List α × Bool) × ContentCache α :=
  if ContentCache.is_expired (c.cases_cache profession) now then (([], true), c)
  else
    match c.cases_cache profession with
    | none => (([], true), c)
    | some e =>
      if e.items.length < ContentCache.DISPLAY_COUNT then (([], true), c)
      else
        ((e.items.take ContentCache.DISPLAY_COUNT, false),
         ⟨c.tools_cache,
          fun p => if p = profession then
              some ⟨e.items.drop ContentCache.DISPLAY_COUNT, e.timestamp, e.seed⟩
            else c.cases_cache p⟩)

/- ContentCache.set_cases (insights.py lines 94-101). -/
def ContentCache.set_cases {α : Type} (c : ContentCache α) (profession : String)
    (items : List α) (seed : Int) (now : Int) : ContentCache α :=
  ⟨c.tools_cache,
   fun p => if p = profession then some ⟨items, now, seed⟩ else c.cases_cache p⟩

/- ContentCache.get_next_seed (insights.py lines 103-107):
   entry.get("seed", -1) + 1 on the selected cache. -/
def ContentCache.get_next_seed {α : Type} (c : ContentCache α) (cache_type : String)
    (profession : String) : Int :=
  let cache := if cache_type = "tools" then c.tools_cache else c.cases_cache
  (((cache profession).map CacheEntry.seed).getD (-1)) + 1

/- An interleaved sequence of cache operations on one key, used to state the
   no-duplicate-delivery property of get_tools / set_tools (claim C1). -/
inductive CacheOp (α : Type) where
  | get : CacheOp α
  | set : List α → Int → CacheOp α
deriving DecidableEq

/- Runs a sequence of get_tools / set_tools operations against a fixed
   (profession, now) key and collects the concatenation of every item list a
   get returned (misses contribute nothing). -/
def runTools {α : Type} (c : ContentCache α) (prof : String) (now : Int) :
    List (CacheOp α) → List α
  | [] => []
  | CacheOp.get :: ops =>
    (c.get_tools prof now).1.1 ++ runTools (c.get_tools prof now).2 prof now ops
  | CacheOp.set batch seed :: ops =>
    runTools (c.set_tools prof batch seed now) prof now ops

/- The batches handed to set_tools by a sequence of operations, in order. -/
def setBatches {α : Type} : List (CacheOp α) → List (List α)
  | [] => []
  | CacheOp.get :: ops => setBatches ops
  | CacheOp.set batch _ :: ops => batch :: setBatches ops

/- The surplus currently stored for a profession (empty when no entry). -/
def toolsItemsAt {α : Type} (c : ContentCache α) (prof : String) : List α :=
  match c.tools_cache prof with
  | none => []
  | some e => e.items

/- TavilyKeyRotator (ai_processor.py lines 15-37).  The unused _lock field is
   omitted. -/
structure TavilyKeyRotator where
  keys : List String
  current_index : Nat

/- TavilyKeyRotator.get_next_key (ai_processor.py lines 25-31).  An empty key
   list returns the empty string without touching the cursor.  Python indexes
   self.keys[self.current_index] without a bounds check; an out-of-range
   cursor would raise IndexError, modelled as the error case. -/
def TavilyKeyRotator.get_next_key (r : TavilyKeyRotator) :
    Except String (String × TavilyKeyRotator) :=
  match r.keys with
  | [] => Except.ok ("", r)
  | _ :: _ =>
    if h : r.current_index < r.keys.length then
      Except.ok (r.keys.get ⟨r.current_index, h⟩,
        ⟨r.keys, (r.current_index + 1) % r.keys.length⟩)
    else Except.error "IndexError"

/- Collects the keys produced by n successive get_next_key calls; a raised
   IndexError truncates the run. -/
def runRotator : TavilyKeyRotator → Nat → List String
  | _, 0 => []
  | r, n + 1 =>
    match r.get_next_key with
    | Except.ok (k, r2) => k :: runRotator r2 n
    | Except.error _ => []

/- One raw news item as far as the dedup loop is concerned: the url key may
   be absent (item.get('url', '') then yields the empty string); the title
   field stands for the rest of the opaque payload. -/
structure NewsItem where
  url : Option String
  title : String
deriving DecidableEq

/- item.get('url', '') in generate_daily_news (insights.py line 610) and
   generate_general_news (line 872). -/
def itemUrl (it : NewsItem) : String := it.url.getD ""

/- The duplicate-URL removal loop of generate_daily_news (insights.py lines
   607-614) and, identically, generate_general_news (lines 869-876): keep an
   item iff its url is non-empty and not yet in seen_urls, adding kept urls
   to seen_urls.  The deduplicated list is what the endpoints stamp with ids
   and persist to the user daily news file. -/
def dedupLoop (seen : List String) : List NewsItem → List NewsItem
  | [] => []
  | it :: rest =>
    if itemUrl it ≠ "" ∧ itemUrl it ∉ seen then
      it :: dedupLoop (itemUrl it :: seen) rest
    else dedupLoop seen rest

/- The dedup pass starting from an empty seen set (seen_urls = set()). -/
def dedupByUrl (items : List NewsItem) : List NewsItem := dedupLoop [] items

/- Modelled from the claim wording for the refinement comparison of C7:
   first-occurrence-by-url filtering, keeping the first item of every url and
   removing later items with the same url, preserving order. -/
def keepFirstByUrl : List NewsItem → List NewsItem
  | [] => []
  | it :: rest =>
    it :: keepFirstByUrl (rest.filter fun x => decide (itemUrl x ≠ itemUrl it))
termination_by l => l.length
decreasing_by
  simp only [List.length_cons]
  exact Nat.lt_succ_of_le (List.length_filter_le _ _)

/- PremiumRecord models the relevant part of a get_premium_status result:
   the expires_at timestamp, already parsed (insights.py lines 238-243). -/
structure PremiumRecord where
  expires_at : Option Int
deriving DecidableEq

/- The is_premium computation of get_ai_tools / get_ai_cases (insights.py
   lines 236-246 and 339-349): any exception (oracle unreachable or an
   unparsable expires_at) degrades to false; a missing record or missing
   expires_at is false; otherwise premium iff expires_at is strictly in the
   future. -/
def computeIsPremium (oracle : Except String (Option PremiumRecord)) (now : Int) : Bool :=
  match oracle with
  | Except.error _ => false
  | Except.ok none => false
  | Except.ok (some r) =>
    match r.expires_at with
    | none => false
    | some t => now < t

/- The JSON payload a tools/cases endpoint returns.  Each Python return site
   populates a different set of keys, so every key that is ever absent is an
   Option (none = key absent from the dict). -/
structure FetchResponse (α : Type) where
  items : List α
  profession : Option String
  source : Option String
  cached : Option Bool
  total_fetched : Option Nat
  error : Option String
deriving DecidableEq

/- Process-wide mutable state touched by the endpoints: the global
   content_cache instance and the user_daily/tools and user_daily/cases
   file stores, keyed by user_id and date. -/
structure AppState (α : Type) where
  cache : ContentCache α
  tools_locks : String → String → Option (List α)
  cases_locks : String → String → Option (List α)

/- Result of one endpoint call: the response payload, the state afterwards,
   and how many batch-producer invocations the call performed (0 or 1). -/
structure FetchOutcome (α : Type) where
  resp : FetchResponse α
  state : AppState α
  producerCalls : Nat

/- _save_user_daily_content (insights.py lines 119-135): upserts the record
   for (user_id, date); the write is assumed to succeed. -/
def storeDaily {α : Type} (locks : String → String → Option (List α))
    (user_id date : String) (items : List α) : String → String → Option (List α) :=
  fun u d => if u = user_id ∧ d = date then some items else locks u d

/- get_ai_tools (insights.py lines 218-318).
   Control flow, in source order:
   1. resolve is_premium (lines 236-246);
   2. free user with an existing daily-lock file for today: return it with
      source user_daily_cache, no cache or producer interaction (249-265);
   3. unless force_refresh, try the content cache; on a hit save the daily
      lock for free users and return source cache (268-279);
   4. slow path: seed = get_next_seed, invoke the producer; on success split
      first DISPLAY_COUNT to the caller, set_tools the remainder only when it
      is non-empty, save the daily lock for free users, source web_search
      (281-308);
   5. if the producer raised: with a fallback file return its first 6 items
      and source fallback, otherwise items [] with an error key and no source
      key at all (309-318). -/
def get_ai_tools {α : Type} (st : AppState α) (profession user_id : String)
    (force_refresh : Bool) (oracle : Except String (Option PremiumRecord))
    (producer : Except String (List α)) (fallback_file : Option (List α))
    (today : String) (now : Int) : FetchOutcome α :=
  let is_premium := computeIsPremium oracle now
  if !is_premium && !force_refresh && (st.tools_locks user_id today).isSome then
    ⟨⟨(st.tools_locks user_id today).getD [], some profession, some "user_daily_cache",
      some true, none, none⟩, st, 0⟩
  else if !force_refresh && !(st.cache.get_tools profession now).1.2 then
    ⟨⟨(st.cache.get_tools profession now).1.1, some profession, some "cache",
      some true, none, none⟩,
     ⟨(st.cache.get_tools profession now).2,
      (if is_premium then st.tools_locks
       else storeDaily st.tools_locks user_id today (st.cache.get_tools profession now).1.1),
      st.cases_locks⟩, 0⟩
  else
    match producer with
    | Except.ok tools =>
      ⟨⟨tools.take ContentCache.DISPLAY_COUNT, some profession, some "web_search",
        some false, some tools.length, none⟩,
       ⟨(if (tools.drop ContentCache.DISPLAY_COUNT).isEmpty then st.cache
         else st.cache.set_tools profession (tools.drop ContentCache.DISPLAY_COUNT)
           (st.cache.get_next_seed "tools" profession) now),
        (if is_premium then st.tools_locks
         else storeDaily st.tools_locks user_id today (tools.take ContentCache.DISPLAY_COUNT)),
        st.cases_locks⟩, 1⟩
    | Except.error e =>
      match fallback_file with
      | some fitems => ⟨⟨fitems.take 6, none, some "fallback", none, none, none⟩, st, 1⟩
      | none => ⟨⟨[], none, none, none, none, some e⟩, st, 1⟩

/- get_ai_cases (insights.py lines 321-421): line-for-line the same policy as
   get_ai_tools, over cases_cache and the user_daily/cases lock store. -/
def get_ai_cases {α : Type} (st : AppState α) (profession user_id : String)
    (force_refresh : Bool) (oracle : Except String (Option PremiumRecord))
    (producer : Except String (List α)) (fallback_file : Option (List α))
    (today : String) (now : Int) : FetchOutcome α :=
  let is_premium := computeIsPremium oracle now
  if !is_premium && !force_refresh && (st.cases_locks user_id today).isSome then
    ⟨⟨(st.cases_locks user_id today).getD [], some profession, some "user_daily_cache",
      some true, none, none⟩, st, 0⟩
  else if !force_refresh && !(st.cache.get_cases profession now).1.2 then
    ⟨⟨(st.cache.get_cases profession now).1.1, some profession, some "cache",
      some true, none, none⟩,
     ⟨(st.cache.get_cases profession now).2, st.tools_locks,
      (if is_premium then st.cases_locks
       else storeDaily st.cases_locks user_id today (st.cache.get_cases profession now).1.1)⟩, 0⟩
  else
    match producer with
    | Except.ok cs =>
      ⟨⟨cs.take ContentCache.DISPLAY_COUNT, some profession, some "web_search",
        some false, some cs.length, none⟩,
       ⟨(if (cs.drop ContentCache.DISPLAY_COUNT).isEmpty then st.cache
         else st.cache.set_cases profession (cs.drop ContentCache.DISPLAY_COUNT)
           (st.cache.get_next_seed "cases" profession) now),
        st.tools_locks,
        (if is_premium then st.cases_locks
         else storeDaily st.cases_locks user_id today (cs.take ContentCache.DISPLAY_COUNT))⟩, 1⟩
    | Except.error e =>
      match fallback_file with
      | some fitems => ⟨⟨fitems.take 6, none, some "fallback", none, none, none⟩, st, 1⟩
      | none => ⟨⟨[], none, none, none, none, some e⟩, st, 1⟩

/- Concrete values reused by witness theorems. -/
def initState : AppState Nat := ⟨ContentCache.empty, fun _ _ => none, fun _ _ => none⟩

def oracleFail : Except String (Option PremiumRecord) := Except.error "supabase down"

def producerOk : Except String (List Nat) := Except.ok [1, 2, 3, 4, 5, 6, 7, 8]

/- Helper: membership of dedupLoop output never has an empty url. -/
theorem not_mem_dedupLoop_of_url_empty (it : NewsItem) (h : itemUrl it = "") :
    ∀ (l : List NewsItem) (seen : List String), it ∉ dedupLoop seen l := by
  intro l
  induction l with
  | nil => intro seen; simp [dedupLoop]
  | cons x rest ih =>
    intro seen
    by_cases hx : itemUrl x ≠ "" ∧ itemUrl x ∉ seen
    · simp only [dedupLoop, if_pos hx, List.mem_cons]
      rintro (rfl | hmem)
      · exact hx.1 h
      · exact ih _ hmem
    · simp only [dedupLoop, if_neg hx]
      exact ih seen

/-- C10: in the news-generation dedup loop (both the profession-tailored and
the general variant), any item whose url field is absent or the empty string
is dropped from the batch entirely: it never appears in the deduplicated list
that the endpoint returns and persists, even when no other item shares its
url. -/
theorem news_dedup_drops_empty_url (batch : List NewsItem) (it : NewsItem)
    (h : itemUrl it = "") : it ∉ dedupByUrl batch :=
  not_mem_dedupLoop_of_url_empty it h batch []

theorem news_dedup_drops_empty_url_witness :
    NewsItem.mk none "t" ∉ dedupByUrl [NewsItem.mk none "t"] :=
  news_dedup_drops_empty_url [NewsItem.mk none "t"] (NewsItem.mk none "t") rfl

/- Helper: with every url non-empty, the seen-set dedup loop computes
   first-occurrence filtering restricted to urls outside the seen set. -/
theorem dedupLoop_eq_keepFirst (l : List NewsItem) :
    ∀ (seen : List String), (∀ it ∈ l, itemUrl it ≠ "") →
      dedupLoop seen l = keepFirstByUrl (l.filter fun it => decide (itemUrl it ∉ seen)) := by
  induction l with
  | nil => intro seen _; simp [dedupLoop, keepFirstByUrl]
  | cons x rest ih =>
    intro seen h
    have hx : itemUrl x ≠ "" := h x (List.mem_cons_self _ _)
    have hrest : ∀ it ∈ rest, itemUrl it ≠ "" := fun it hit => h it (List.mem_cons_of_mem _ hit)
    by_cases hseen : itemUrl x ∈ seen
    · have hcond : ¬ (itemUrl x ≠ "" ∧ itemUrl x ∉ seen) := fun hc => hc.2 hseen
      have hdx : (decide (itemUrl x ∉ seen)) = false := by simp [hseen]
      simp only [dedupLoop, if_neg hcond, List.filter_cons, hdx, Bool.false_eq_true, if_false]
      exact ih seen hrest
    · have hcond : itemUrl x ≠ "" ∧ itemUrl x ∉ seen := ⟨hx, hseen⟩
      have hdx : (decide (itemUrl x ∉ seen)) = true := by simp [hseen]
      simp only [dedupLoop, if_pos hcond, List.filter_cons, hdx, if_true]
      rw [keepFirstByUrl]
      have hfilter : ((rest.filter fun it => decide (itemUrl it ∉ seen)).filter
            fun y => decide (itemUrl y ≠ itemUrl x)) =
          rest.filter fun it => decide (itemUrl it ∉ itemUrl x :: seen) := by
        rw [List.filter_filter]
        apply List.filter_congr
        intro a _
        by_cases h1 : itemUrl a = itemUrl x <;> by_cases h2 : itemUrl a ∈ seen <;>
          simp [h1, h2, List.mem_cons]
      rw [hfilter, ih (itemUrl x :: seen) hrest]

/-- C7: in the news-generation dedup pass (identical in generate_daily_news
and generate_general_news), for a batch in which every item carries a
non-empty url, every item whose url equals the url of an earlier item is
removed, the first occurrence of each url is kept, and the relative order of
kept items is preserved: the loop computes exactly first-occurrence-by-url
filtering.  The deduplicated list is what the endpoint then stamps and
persists to the daily news file. -/
theorem news_dedup_keeps_first_occurrence (batch : List NewsItem)
    (h : ∀ it ∈ batch, itemUrl it ≠ "") :
    dedupByUrl batch = keepFirstByUrl batch := by
  have hmain := dedupLoop_eq_keepFirst batch [] h
  simpa [dedupByUrl] using hmain

theorem news_dedup_keeps_first_occurrence_witness :
    dedupByUrl [NewsItem.mk (some "a") "1", NewsItem.mk (some "b") "2",
        NewsItem.mk (some "a") "3", NewsItem.mk (some "c") "4"] =
      keepFirstByUrl [NewsItem.mk (some "a") "1", NewsItem.mk (some "b") "2",
        NewsItem.mk (some "a") "3", NewsItem.mk (some "c") "4"] ∧
    dedupByUrl [NewsItem.mk (some "a") "1", NewsItem.mk (some "b") "2",
        NewsItem.mk (some "a") "3", NewsItem.mk (some "c") "4"] =
      [NewsItem.mk (some "a") "1", NewsItem.mk (some "b") "2",
        NewsItem.mk (some "c") "4"] :=
  ⟨news_dedup_keeps_first_occurrence _ (by decide), by decide⟩

/-- C9: TavilyKeyRotator.get_next_key on a non-empty key list returns the key
at the current cursor and advances the cursor modulo the list length: on a
fresh rotator holding 3 keys, 9 sequential calls return each key exactly 3
times, in round-robin order starting from key 0; and on an empty key list the
rotator never raises, returning the empty string and leaving the cursor
unchanged. -/
theorem rotator_round_robin :
    (∀ a b c : String,
      runRotator ⟨[a, b, c], 0⟩ 9 = [a, b, c, a, b, c, a, b, c]) ∧
    (∀ idx : Nat, TavilyKeyRotator.get_next_key ⟨[], idx⟩ = Except.ok ("", ⟨[], idx⟩)) := by
  constructor
  · intro a b c
    simp [runRotator, TavilyKeyRotator.get_next_key]
  · intro idx
    rfl

/-- C5: ContentCache.get_tools and get_cases return ([], true) when no entry
exists for the profession, when now minus the entry timestamp is strictly
greater than CACHE_TTL (regardless of item count), or when fewer than
DISPLAY_COUNT items remain, leaving the cache unchanged; otherwise they
remove and return exactly the first DISPLAY_COUNT items in FIFO order with
need_fetch false, leaving the remainder (and only it) stored under the same
timestamp and seed, other professions untouched: returned plus remainder
reassembles the original list, so the same surplus is never served twice. -/
theorem contentCache_get_spec {α : Type} (c : ContentCache α) (prof : String) (now : Int) :
    ((c.tools_cache prof = none ∨
      (∃ e, c.tools_cache prof = some e ∧ now - e.timestamp > ContentCache.CACHE_TTL) ∨
      (∃ e, c.tools_cache prof = some e ∧ e.items.length < ContentCache.DISPLAY_COUNT)) →
      c.get_tools prof now = (([], true), c)) ∧
    (∀ e, c.tools_cache prof = some e → now - e.timestamp ≤ ContentCache.CACHE_TTL →
      ContentCache.DISPLAY_COUNT ≤ e.items.length →
      (c.get_tools prof now).1 = (e.items.take ContentCache.DISPLAY_COUNT, false) ∧
      ((c.get_tools prof now).2).tools_cache prof =
        some ⟨e.items.drop ContentCache.DISPLAY_COUNT, e.timestamp, e.seed⟩ ∧
      (c.get_tools prof now).1.1.length = ContentCache.DISPLAY_COUNT ∧
      (c.get_tools prof now).1.1 ++ e.items.drop ContentCache.DISPLAY_COUNT = e.items ∧
      (∀ q, q ≠ prof → ((c.get_tools prof now).2).tools_cache q = c.tools_cache q)) ∧
    ((c.cases_cache prof = none ∨
      (∃ e, c.cases_cache prof = some e ∧ now - e.timestamp > ContentCache.CACHE_TTL) ∨
      (∃ e, c.cases_cache prof = some e ∧ e.items.length < ContentCache.DISPLAY_COUNT)) →
      c.get_cases prof now = (([], true), c)) ∧
    (∀ e, c.cases_cache prof = some e → now - e.timestamp ≤ ContentCache.CACHE_TTL →
      ContentCache.DISPLAY_COUNT ≤ e.items.length →
      (c.get_cases prof now).1 = (e.items.take ContentCache.DISPLAY_COUNT, false) ∧
      ((c.get_cases prof now).2).cases_cache prof =
        some ⟨e.items.drop ContentCache.DISPLAY_COUNT, e.timestamp, e.seed⟩ ∧
      (c.get_cases prof now).1.1.length = ContentCache.DISPLAY_COUNT ∧
      (c.get_cases prof now).1.1 ++ e.items.drop ContentCache.DISPLAY_COUNT = e.items ∧
      (∀ q, q ≠ prof → ((c.get_cases prof now).2).cases_cache q = c.cases_cache q)) := by
  refine ⟨?_, ?_, ?_, ?_⟩
  · rintro (h | ⟨e, he, hexp⟩ | ⟨e, he, hlen⟩)
    · simp [ContentCache.get_tools, ContentCache.is_expired, h]
    · simp [ContentCache.get_tools, ContentCache.is_expired, he, hexp]
    · by_cases hexp : now - e.timestamp > ContentCache.CACHE_TTL
      · simp [ContentCache.get_tools, ContentCache.is_expired, he, hexp]
      · simp [ContentCache.get_tools, ContentCache.is_expired, he, hexp, hlen]
  · intro e he hexp hlen
    have hexp2 : ¬ (now - e.timestamp > ContentCache.CACHE_TTL) := not_lt.mpr hexp
    have hlen2 : ¬ (e.items.length < ContentCache.DISPLAY_COUNT) := not_lt.mpr hlen
    refine ⟨?_, ?_, ?_, ?_, ?_⟩
    · simp [ContentCache.get_tools, ContentCache.is_expired, he, hexp2, hlen2]
    · simp [ContentCache.get_tools, ContentCache.is_expired, he, hexp2, hlen2]
    · simp [ContentCache.get_tools, ContentCache.is_expired, he, hexp2, hlen2,
        List.length_take, Nat.min_eq_left hlen]
    · simp [ContentCache.get_tools, ContentCache.is_expired, he, hexp2, hlen2,
        List.take_append_drop]
    · intro q hq
      simp [ContentCache.get_tools, ContentCache.is_expired, he, hexp2, hlen2, hq]
  · rintro (h | ⟨e, he, hexp⟩ | ⟨e, he, hlen⟩)
    · simp [ContentCache.get_cases, ContentCache.is_expired, h]
    · simp [ContentCache.get_cases, ContentCache.is_expired, he, hexp]
    · by_cases hexp : now - e.timestamp > ContentCache.CACHE_TTL
      · simp [ContentCache.get_cases, ContentCache.is_expired, he, hexp]
      · simp [ContentCache.get_cases, ContentCache.is_expired, he, hexp, hlen]
  · intro e he hexp hlen
    have hexp2 : ¬ (now - e.timestamp > ContentCache.CACHE_TTL) := not_lt.mpr hexp
    have hlen2 : ¬ (e.items.length < ContentCache.DISPLAY_COUNT) := not_lt.mpr hlen
    refine ⟨?_, ?_, ?_, ?_, ?_⟩
    · simp [ContentCache.get_cases, ContentCache.is_expired, he, hexp2, hlen2]
    · simp [ContentCache.get_cases, ContentCache.is_expired, he, hexp2, hlen2]
    · simp [ContentCache.get_cases, ContentCache.is_expired, he, hexp2, hlen2,
        List.length_take, Nat.min_eq_left hlen]
    · simp [ContentCache.get_cases, ContentCache.is_expired, he, hexp2, hlen2,
        List.take_append_drop]
    · intro q hq
      simp [ContentCache.get_cases, ContentCache.is_expired, he, hexp2, hlen2, hq]

theorem contentCache_get_spec_witness :
    ((ContentCache.mk (fun p => if p = "p" then some ⟨[1, 2, 3, 4, 5, 6, 7, 8], 0, 0⟩ else none)
        (fun _ => none) : ContentCache Nat).get_tools "p" 10).1 =
      ([1, 2, 3, 4, 5, 6], false) ∧
    (((ContentCache.mk (fun p => if p = "p" then some ⟨[1, 2, 3, 4, 5, 6, 7, 8], 0, 0⟩ else none)
        (fun _ => none) : ContentCache Nat).get_tools "p" 10).2).tools_cache "p" =
      some ⟨[7, 8], 0, 0⟩ ∧
    ((ContentCache.mk (fun p => if p = "p" then some ⟨[1, 2, 3, 4, 5, 6, 7, 8], 0, 0⟩ else none)
        (fun _ => none) : ContentCache Nat).get_tools "p" 1801).1 = ([], true) := by
  have hit := (contentCache_get_spec
    (ContentCache.mk (fun p => if p = "p" then some ⟨[1, 2, 3, 4, 5, 6, 7, 8], 0, 0⟩ else none)
      (fun _ => none) : ContentCache Nat) "p" 10).2.1
    ⟨[1, 2, 3, 4, 5, 6, 7, 8], 0, 0⟩ (by decide) (by decide) (by decide)
  have stale := (contentCache_get_spec
    (ContentCache.mk (fun p => if p = "p" then some ⟨[1, 2, 3, 4, 5, 6, 7, 8], 0, 0⟩ else none)
      (fun _ => none) : ContentCache Nat) "p" 1801).1
    (Or.inr (Or.inl ⟨⟨[1, 2, 3, 4, 5, 6, 7, 8], 0, 0⟩, by decide, by decide⟩))
  exact ⟨by rw [hit.1]; decide, by rw [hit.2.1]; decide, by rw [stale]⟩

/- Helper: every get_tools call is either a miss that leaves the cache
   untouched, or a hit that pops the first DISPLAY_COUNT items. -/
theorem get_tools_cases {α : Type} (c : ContentCache α) (prof : String) (now : Int) :
    c.get_tools prof now = (([], true), c) ∨
    ∃ e, c.tools_cache prof = some e ∧
      c.get_tools prof now = ((e.items.take ContentCache.DISPLAY_COUNT, false),
        ⟨fun p => if p = prof then
            some ⟨e.items.drop ContentCache.DISPLAY_COUNT, e.timestamp, e.seed⟩
          else c.tools_cache p, c.cases_cache⟩) := by
  by_cases hnone : c.tools_cache prof = none
  · left
    simp [ContentCache.get_tools, ContentCache.is_expired, hnone]
  · obtain ⟨e, he⟩ := Option.ne_none_iff_exists.mp hnone
    by_cases hexp : now - e.timestamp > ContentCache.CACHE_TTL
    · left
      simp [ContentCache.get_tools, ContentCache.is_expired, ← he, hexp]
    · by_cases hlen : e.items.length < ContentCache.DISPLAY_COUNT
      · left
        simp [ContentCache.get_tools, ContentCache.is_expired, ← he, hexp, hlen]
      · right
        exact ⟨e, he.symm,
          by simp [ContentCache.get_tools, ContentCache.is_expired, ← he, hexp, hlen]⟩

/- Helper: whatever the starting cache, the items a run of operations delivers
   form a sublist of the initially stored surplus followed by the set batches
   in order. -/
theorem runTools_sublist {α : Type} (ops : List (CacheOp α)) :
    ∀ (c : ContentCache α) (prof : String) (now : Int),
      List.Sublist (runTools c prof now ops)
        (toolsItemsAt c prof ++ (setBatches ops).flatten) := by
  induction ops with
  | nil => intro c prof now; simp [runTools]
  | cons op ops ih =>
    intro c prof now
    cases op with
    | get =>
      rcases get_tools_cases c prof now with hcase | ⟨e, he, hcase⟩
      · rw [runTools, hcase]
        simpa [setBatches] using ih c prof now
      · rw [runTools, hcase]
        have he2 : toolsItemsAt c prof = e.items := by simp [toolsItemsAt, he]
        have hupd : toolsItemsAt
            (⟨fun p => if p = prof then
                some ⟨e.items.drop ContentCache.DISPLAY_COUNT, e.timestamp, e.seed⟩
              else c.tools_cache p, c.cases_cache⟩ : ContentCache α) prof =
            e.items.drop ContentCache.DISPLAY_COUNT := by
          simp [toolsItemsAt]
        have h2 := ih (⟨fun p => if p = prof then
            some ⟨e.items.drop ContentCache.DISPLAY_COUNT, e.timestamp, e.seed⟩
          else c.tools_cache p, c.cases_cache⟩ : ContentCache α) prof now
        rw [hupd] at h2
        have h3 := List.Sublist.append
          (List.Sublist.refl (e.items.take ContentCache.DISPLAY_COUNT)) h2
        rw [he2, setBatches]
        have h4 : e.items.take ContentCache.DISPLAY_COUNT ++
            (e.items.drop ContentCache.DISPLAY_COUNT ++ (setBatches ops).flatten) =
            e.items ++ (setBatches ops).flatten := by
          rw [← List.append_assoc, List.take_append_drop]
        rw [← h4]
        exact h3
    | set batch seed =>
      rw [runTools]
      have h2 := ih (c.set_tools prof batch seed now) prof now
      have hupd : toolsItemsAt (c.set_tools prof batch seed now) prof = batch := by
        simp [toolsItemsAt, ContentCache.set_tools]
      rw [hupd] at h2
      rw [setBatches, List.flatten_cons]
      exact h2.trans (List.sublist_append_right _ _)

/-- C1: for every sequence of interleaved get_tools and set_tools operations
on a single (kind, profession) key of the ContentCache whose batches carry
pairwise distinct items, the concatenation of the item lists returned by hits
of get has no repeated item and is a sublist of the concatenation of the set
batches in order (so batch insertion order is preserved and nothing already
returned is reordered); applied to every prefix of the sequence, each
returned item already lies in the batches set before it, hence originates
from exactly one preceding set batch and is never delivered twice. -/
theorem contentCache_no_duplicate_delivery {α : Type} (ops : List (CacheOp α))
    (prof : String) (now : Int) (hnd : ((setBatches ops).flatten).Nodup) :
    (runTools ContentCache.empty prof now ops).Nodup ∧
    (∀ pre suf, ops = pre ++ suf →
      List.Sublist (runTools ContentCache.empty prof now pre) ((setBatches pre).flatten)) := by
  have hmain : ∀ (l : List (CacheOp α)),
      List.Sublist (runTools ContentCache.empty prof now l) ((setBatches l).flatten) := by
    intro l
    have h := runTools_sublist l ContentCache.empty prof now
    simpa [toolsItemsAt, ContentCache.empty] using h
  exact ⟨List.Nodup.sublist (hmain ops) hnd, fun pre _ _ => hmain pre⟩

theorem contentCache_no_duplicate_delivery_witness :
    (runTools ContentCache.empty "p" 0
      [CacheOp.set [1, 2, 3, 4, 5, 6, 7, 8] 0, CacheOp.get, CacheOp.get]).Nodup :=
  (contentCache_no_duplicate_delivery
    [CacheOp.set [1, 2, 3, 4, 5, 6, 7, 8] 0, CacheOp.get, CacheOp.get] "p" 0 (by decide)).1

/- Helper: a free user's call with force_refresh false and an existing daily
   lock record short-circuits: it returns the stored items verbatim, changes
   no state, and performs no producer invocation. -/
theorem get_ai_tools_daily_lock_hit {α : Type} (st : AppState α) (profession user_id : String)
    (oracle : Except String (Option PremiumRecord)) (producer : Except String (List α))
    (fallback_file : Option (List α)) (today : String) (now : Int) (l : List α)
    (hp : computeIsPremium oracle now = false)
    (hl : st.tools_locks user_id today = some l) :
    get_ai_tools st profession user_id false oracle producer fallback_file today now =
      ⟨⟨l, some profession, some "user_daily_cache", some true, none, none⟩, st, 0⟩ := by
  simp [get_ai_tools, hp, hl]

/- Helper: a free user's call with no daily lock for today and a successful
   producer (needed only if the cache misses) always ends with the daily lock
   holding exactly the items the call returned. -/
theorem get_ai_tools_writes_lock {α : Type} (st : AppState α) (profession user_id : String)
    (force_refresh : Bool) (oracle : Except String (Option PremiumRecord))
    (producer : Except String (List α)) (fallback_file : Option (List α))
    (today : String) (now : Int) (tools : List α)
    (hp : computeIsPremium oracle now = false)
    (hl : st.tools_locks user_id today = none)
    (hprod : producer = Except.ok tools) :
    (get_ai_tools st profession user_id force_refresh oracle producer fallback_file
        today now).state.tools_locks user_id today =
      some ((get_ai_tools st profession user_id force_refresh oracle producer fallback_file
        today now).resp.items) := by
  subst hprod
  cases hc : (!force_refresh && !(st.cache.get_tools profession now).1.2) with
  | true => simp [get_ai_tools, hp, hl, hc, storeDaily]
  | false => simp [get_ai_tools, hp, hl, hc, storeDaily]

/-- C2: for a non-premium user with no daily-lock record for today whose first
request's producer invocation succeeds if one is needed, two consecutive calls
to the tools endpoint on the same calendar day with force_refresh false return
identical items lists, and the second call performs zero batch-producer
invocations: it is answered entirely from the daily-lock record written by the
first call. -/
theorem free_user_daily_stability {α : Type} (st : AppState α) (profession user_id today : String)
    (now now2 : Int) (oracle oracle2 : Except String (Option PremiumRecord))
    (producer producer2 : Except String (List α)) (fb fb2 : Option (List α)) (tools : List α)
    (hp : computeIsPremium oracle now = false)
    (hp2 : computeIsPremium oracle2 now2 = false)
    (hl : st.tools_locks user_id today = none)
    (hprod : producer = Except.ok tools) :
    (get_ai_tools (get_ai_tools st profession user_id false oracle producer fb today now).state
        profession user_id false oracle2 producer2 fb2 today now2).resp.items =
      (get_ai_tools st profession user_id false oracle producer fb today now).resp.items ∧
    (get_ai_tools (get_ai_tools st profession user_id false oracle producer fb today now).state
        profession user_id false oracle2 producer2 fb2 today now2).producerCalls = 0 ∧
    (get_ai_tools (get_ai_tools st profession user_id false oracle producer fb today now).state
        profession user_id false oracle2 producer2 fb2 today now2).resp.source =
      some "user_daily_cache" := by
  have hw := get_ai_tools_writes_lock st profession user_id false oracle producer fb
    today now tools hp hl hprod
  have h2 := get_ai_tools_daily_lock_hit
    (get_ai_tools st profession user_id false oracle producer fb today now).state
    profession user_id oracle2 producer2 fb2 today now2 _ hp2 hw
  rw [h2]
  exact ⟨rfl, rfl, rfl⟩

theorem free_user_daily_stability_witness :
    (get_ai_tools (get_ai_tools initState "p" "u" false oracleFail producerOk none "d" 0).state
        "p" "u" false oracleFail producerOk none "d" 5).resp.items =
      (get_ai_tools initState "p" "u" false oracleFail producerOk none "d" 0).resp.items :=
  (free_user_daily_stability initState "p" "u" "d" 0 5 oracleFail oracleFail producerOk producerOk
    none none [1, 2, 3, 4, 5, 6, 7, 8] rfl rfl rfl rfl).1

/-- C3: on every tools request the user is treated as premium iff the premium
oracle reports an expires_at timestamp strictly in the future; if the oracle
lookup raises any exception the request proceeds with is_premium false instead
of failing; and whenever is_premium is true the daily-lock store is never
written on any path (neither the cache-hit path nor the live-fetch path saves
a daily record for a premium user). -/
theorem premium_oracle_gating {α : Type} :
    (∀ (e : String) (now : Int), computeIsPremium (Except.error e) now = false) ∧
    (∀ (oracle : Except String (Option PremiumRecord)) (now : Int),
      computeIsPremium oracle now = true ↔
        ∃ r, oracle = Except.ok (some r) ∧ ∃ t, r.expires_at = some t ∧ now < t) ∧
    (∀ (st : AppState α) (profession user_id : String) (force_refresh : Bool)
      (oracle : Except String (Option PremiumRecord)) (producer : Except String (List α))
      (fallback_file : Option (List α)) (today : String) (now : Int),
      computeIsPremium oracle now = true →
      (get_ai_tools st profession user_id force_refresh oracle producer fallback_file
        today now).state.tools_locks = st.tools_locks) := by
  refine ⟨fun _ _ => rfl, ?_, ?_⟩
  · intro oracle now
    constructor
    · intro h
      match oracle with
      | Except.error e => simp [computeIsPremium] at h
      | Except.ok none => simp [computeIsPremium] at h
      | Except.ok (some r) =>
        match hr : r.expires_at with
        | none => simp [computeIsPremium, hr] at h
        | some t =>
          refine ⟨r, rfl, t, hr, ?_⟩
          simpa [computeIsPremium, hr] using h
    · rintro ⟨r, rfl, t, hr, ht⟩
      simp [computeIsPremium, hr, ht]
  · intro st profession user_id force_refresh oracle producer fallback_file today now hp
    cases hc : (!force_refresh && !(st.cache.get_tools profession now).1.2) with
    | true => simp [get_ai_tools, hp, hc]
    | false =>
      cases producer with
      | ok tools => simp [get_ai_tools, hp, hc]
      | error e =>
        cases fallback_file with
        | some f => simp [get_ai_tools, hp, hc]
        | none => simp [get_ai_tools, hp, hc]

theorem premium_oracle_gating_witness :
    computeIsPremium (Except.error "supabase down") 0 = false ∧
    computeIsPremium (Except.ok (some ⟨some 10⟩)) 0 = true ∧
    (get_ai_tools initState "p" "u" false (Except.ok (some ⟨some 10⟩))
      (Except.ok [1, 2, 3]) none "d" 0).state.tools_locks = initState.tools_locks :=
  ⟨(@premium_oracle_gating Nat).1 "supabase down" 0,
   ((@premium_oracle_gating Nat).2.1 (Except.ok (some ⟨some 10⟩)) 0).mpr
     ⟨⟨some 10⟩, rfl, 10, rfl, by decide⟩,
   (@premium_oracle_gating Nat).2.2 initState "p" "u" false (Except.ok (some ⟨some 10⟩))
     (Except.ok [1, 2, 3]) none "d" 0 (by decide)⟩

/-- C4: for a non-premium user a call with force_refresh true bypasses both
the daily-lock read and the content-cache read (whatever the lock and cache
hold, the returned items are the first DISPLAY_COUNT items of the producer
result, source web_search, one producer invocation), and overwrites the
user's daily-lock record for today with the displayed slice; a subsequent
same-day call with force_refresh false then returns exactly that forced
result, read back from the just-written lock with zero further producer
invocations. -/
theorem force_refresh_locks_free_user {α : Type} (st : AppState α)
    (profession user_id today : String) (now now2 : Int)
    (oracle oracle2 : Except String (Option PremiumRecord))
    (producer producer2 : Except String (List α)) (fb fb2 : Option (List α)) (tools : List α)
    (hp : computeIsPremium oracle now = false)
    (hp2 : computeIsPremium oracle2 now2 = false)
    (hprod : producer = Except.ok tools) :
    (get_ai_tools st profession user_id true oracle producer fb today now).resp.items =
      tools.take ContentCache.DISPLAY_COUNT ∧
    (get_ai_tools st profession user_id true oracle producer fb today now).resp.source =
      some "web_search" ∧
    (get_ai_tools st profession user_id true oracle producer fb today now).producerCalls = 1 ∧
    (get_ai_tools st profession user_id true oracle producer fb today now).state.tools_locks
        user_id today = some (tools.take ContentCache.DISPLAY_COUNT) ∧
    (get_ai_tools (get_ai_tools st profession user_id true oracle producer fb today now).state
        profession user_id false oracle2 producer2 fb2 today now2).resp.items =
      tools.take ContentCache.DISPLAY_COUNT ∧
    (get_ai_tools (get_ai_tools st profession user_id true oracle producer fb today now).state
        profession user_id false oracle2 producer2 fb2 today now2).producerCalls = 0 := by
  subst hprod
  have hlock : (get_ai_tools st profession user_id true oracle (Except.ok tools) fb
      today now).state.tools_locks user_id today =
      some (tools.take ContentCache.DISPLAY_COUNT) := by
    simp [get_ai_tools, hp, storeDaily]
  have h2 := get_ai_tools_daily_lock_hit
    (get_ai_tools st profession user_id true oracle (Except.ok tools) fb today now).state
    profession user_id oracle2 producer2 fb2 today now2 _ hp2 hlock
  refine ⟨by simp [get_ai_tools, hp], by simp [get_ai_tools, hp], by simp [get_ai_tools, hp],
    hlock, by rw [h2], by rw [h2]⟩

theorem force_refresh_locks_free_user_witness :
    (get_ai_tools initState "p" "u" true oracleFail producerOk none "d" 0).resp.items =
      [1, 2, 3, 4, 5, 6] ∧
    (get_ai_tools (get_ai_tools initState "p" "u" true oracleFail producerOk none "d" 0).state
        "p" "u" false oracleFail producerOk none "d" 7).resp.items = [1, 2, 3, 4, 5, 6] := by
  have h := force_refresh_locks_free_user initState "p" "u" "d" 0 7 oracleFail oracleFail
    producerOk producerOk none none [1, 2, 3, 4, 5, 6, 7, 8] rfl rfl rfl
  exact ⟨by rw [h.1]; decide, by rw [h.2.2.2.2.1]; decide⟩

/-- C6 counterexample: with the batch producer raising on the slow path and no
static fallback file on disk, the tools endpoint returns a payload carrying
only an items [] and an error marker, with no source field at all; so the
claim that every such payload has source field "fallback" or "error" is false
at this input (the producer was invoked, so the slow path was reached). -/
theorem producer_failure_source_counterexample :
    ¬ (((get_ai_tools initState "p" "u" true oracleFail (Except.error "boom") none "d"
          0).resp.source = some "fallback") ∨
       ((get_ai_tools initState "p" "u" true oracleFail (Except.error "boom") none "d"
          0).resp.source = some "error")) ∧
    (get_ai_tools initState "p" "u" true oracleFail (Except.error "boom") none "d"
      0).resp.error = some "boom" ∧
    (get_ai_tools initState "p" "u" true oracleFail (Except.error "boom") none "d"
      0).producerCalls = 1 := by
  decide

/-- C6 (amended): if the batch producer raises on a slow-path fetch, the tools
and cases endpoints never propagate the exception: the call still returns a
normal payload and leaves all state unchanged; when the static offline file
exists the payload carries its first 6 items with source "fallback", and
otherwise the payload is an explicit empty result carrying the error marker in
an error field, with no source field at all. -/
theorem producer_failure_fallback_amended {α : Type} (st : AppState α)
    (profession user_id : String) (force_refresh : Bool)
    (oracle : Except String (Option PremiumRecord)) (e : String)
    (fb : Option (List α)) (today : String) (now : Int) :
    ((get_ai_tools st profession user_id force_refresh oracle (Except.error e) fb
        today now).producerCalls = 1 →
      (get_ai_tools st profession user_id force_refresh oracle (Except.error e) fb
        today now).state = st ∧
      ((∃ f, fb = some f ∧
          (get_ai_tools st profession user_id force_refresh oracle (Except.error e) fb
            today now).resp = ⟨f.take 6, none, some "fallback", none, none, none⟩) ∨
        (fb = none ∧
          (get_ai_tools st profession user_id force_refresh oracle (Except.error e) fb
            today now).resp = ⟨[], none, none, none, none, some e⟩))) ∧
    ((get_ai_cases st profession user_id force_refresh oracle (Except.error e) fb
        today now).producerCalls = 1 →
      (get_ai_cases st profession user_id force_refresh oracle (Except.error e) fb
        today now).state = st ∧
      ((∃ f, fb = some f ∧
          (get_ai_cases st profession user_id force_refresh oracle (Except.error e) fb
            today now).resp = ⟨f.take 6, none, some "fallback", none, none, none⟩) ∨
        (fb = none ∧
          (get_ai_cases st profession user_id force_refresh oracle (Except.error e) fb
            today now).resp = ⟨[], none, none, none, none, some e⟩))) := by
  constructor
  · intro hcall
    cases h1 : (!(computeIsPremium oracle now) && !force_refresh &&
        (st.tools_locks user_id today).isSome) with
    | true =>
      exfalso
      simp [get_ai_tools, h1] at hcall
    | false =>
      cases h2 : (!force_refresh && !(st.cache.get_tools profession now).1.2) with
      | true =>
        exfalso
        simp [get_ai_tools, h1, h2] at hcall
      | false =>
        cases fb with
        | some f =>
          refine ⟨by simp [get_ai_tools, h1, h2], Or.inl ⟨f, rfl, ?_⟩⟩
          simp [get_ai_tools, h1, h2]
        | none =>
          refine ⟨by simp [get_ai_tools, h1, h2], Or.inr ⟨rfl, ?_⟩⟩
          simp [get_ai_tools, h1, h2]
  · intro hcall
    cases h1 : (!(computeIsPremium oracle now) && !force_refresh &&
        (st.cases_locks user_id today).isSome) with
    | true =>
      exfalso
      simp [get_ai_cases, h1] at hcall
    | false =>
      cases h2 : (!force_refresh && !(st.cache.get_cases profession now).1.2) with
      | true =>
        exfalso
        simp [get_ai_cases, h1, h2] at hcall
      | false =>
        cases fb with
        | some f =>
          refine ⟨by simp [get_ai_cases, h1, h2], Or.inl ⟨f, rfl, ?_⟩⟩
          simp [get_ai_cases, h1, h2]
        | none =>
          refine ⟨by simp [get_ai_cases, h1, h2], Or.inr ⟨rfl, ?_⟩⟩
          simp [get_ai_cases, h1, h2]

theorem producer_failure_fallback_amended_witness :
    (get_ai_tools initState "p" "u" true oracleFail (Except.error "boom")
        (some [7, 7, 7, 7, 7, 7, 7]) "d" 0).resp.source = some "fallback" ∧
    (get_ai_cases initState "p" "u" true oracleFail (Except.error "boom") none "d"
      0).resp.error = some "boom" := by
  have h1 := (producer_failure_fallback_amended initState "p" "u" true oracleFail "boom"
    (some [7, 7, 7, 7, 7, 7, 7]) "d" 0).1 (by decide)
  have h2 := (producer_failure_fallback_amended initState "p" "u" true oracleFail "boom"
    none "d" 0).2 (by decide)
  constructor
  · rcases h1.2 with ⟨f, hf, hresp⟩ | ⟨hff, _⟩
    · rw [hresp]
    · simp at hff
  · rcases h2.2 with ⟨f, hf, _⟩ | ⟨_, hresp⟩
    · simp at hf
    · rw [hresp]

/-- C8 (amended): on a slow-path fetch the producer result is split with the
first DISPLAY_COUNT items going to the caller; the remainder is stored into
the ContentCache via set_tools only when it is non-empty, in which case the
entry holds exactly the remainder with fetched_at re-stamped to now and the
new seed stored; when the producer returns DISPLAY_COUNT or fewer items the
remainder is empty, set_tools is not called, and the cache (entries,
timestamps and seeds included) is left exactly as it was. -/
theorem slow_path_restock_split {α : Type} (st : AppState α) (profession user_id : String)
    (oracle : Except String (Option PremiumRecord)) (producer : Except String (List α))
    (fb : Option (List α)) (today : String) (now : Int) (tools : List α)
    (hprod : producer = Except.ok tools) :
    (get_ai_tools st profession user_id true oracle producer fb today now).resp.items =
      tools.take ContentCache.DISPLAY_COUNT ∧
    (tools.drop ContentCache.DISPLAY_COUNT = [] →
      (get_ai_tools st profession user_id true oracle producer fb today now).state.cache =
        st.cache) ∧
    (tools.drop ContentCache.DISPLAY_COUNT ≠ [] →
      (get_ai_tools st profession user_id true oracle producer fb today
          now).state.cache.tools_cache profession =
        some ⟨tools.drop ContentCache.DISPLAY_COUNT, now,
          st.cache.get_next_seed "tools" profession⟩) := by
  subst hprod
  refine ⟨by simp [get_ai_tools], ?_, ?_⟩
  · intro hdrop
    simp [get_ai_tools, hdrop]
  · intro hdrop
    simp [get_ai_tools, ContentCache.set_tools, hdrop]

theorem slow_path_restock_split_witness :
    (get_ai_tools initState "p" "u" true oracleFail producerOk none "d"
        0).state.cache.tools_cache "p" = some ⟨[7, 8], 0, 0⟩ ∧
    (get_ai_tools initState "p" "u" true oracleFail (Except.ok [1, 2, 3]) none "d"
      0).state.cache = initState.cache := by
  have h1 := slow_path_restock_split initState "p" "u" oracleFail producerOk none "d" 0
    [1, 2, 3, 4, 5, 6, 7, 8] rfl
  have h2 := slow_path_restock_split initState "p" "u" oracleFail (Except.ok [1, 2, 3]) none
    "d" 0 [1, 2, 3] rfl
  exact ⟨by rw [h1.2.2 (by decide)]; decide, h2.2.1 (by decide)⟩

/-- C8 counterexample: with an existing cache entry for the profession and a
producer returning exactly DISPLAY_COUNT items (so the remainder is empty),
the slow-path fetch leaves the old entry untouched: the entry is not replaced
by the empty remainder, its timestamp is not re-stamped to now = 1000 and the
next seed 6 is not stored, refuting the claim that set is called
unconditionally including for an empty remainder. -/
theorem slow_path_set_counterexample :
    (get_ai_tools
      (⟨⟨fun p => if p = "p" then some ⟨[99], 0, 5⟩ else none, fun _ => none⟩,
        fun _ _ => none, fun _ _ => none⟩ : AppState Nat)
      "p" "u" true oracleFail (Except.ok [1, 2, 3, 4, 5, 6]) none "d"
      1000).state.cache.tools_cache "p" = some ⟨[99], 0, 5⟩ ∧
    ¬ ((get_ai_tools
      (⟨⟨fun p => if p = "p" then some ⟨[99], 0, 5⟩ else none, fun _ => none⟩,
        fun _ _ => none, fun _ _ => none⟩ : AppState Nat)
      "p" "u" true oracleFail (Except.ok [1, 2, 3, 4, 5, 6]) none "d"
      1000).state.cache.tools_cache "p" = some ⟨[], 1000, 6⟩) := by
  decide
